import Mathlib

/-
Verification of the neulbom bulk student-roster pipeline.

Shallow embedding of the relevant parts of the repository:
  * spaces/zep_client.py   — ZEPClient._make_request retry/backoff logic
  * spaces/services.py     — create_student_space / create_spaces_for_students /
                             retry_failed_space_creation
  * students/services.py   — StudentAccountService.generate_student_username,
                             create_students_from_csv_with_auto_school_class
  * students/validators.py — CSVValidator.validate / _validate_columns / _validate_data
  * students/views.py      — student_upload duplicate flagging and the
                             space-provisioning batch guard
Pure data is modelled with Lists, Strings and Nats; database state is passed
explicitly; exceptions are modelled with Except / Bool outcomes.
-/

/-! ## ZEP client (spaces/zep_client.py, ZEPClient._make_request) -/

/-- Outcome of one call to the embedded `_make_request`:
`ok payload` models returning `response.json()`;
`rateLimitExceeded` models `raise ZEPAPIError("Rate limit exceeded. Max retries reached.")`
(zep_client.py line 104);
`requestFailed code` models `raise ZEPAPIError("Request failed after 3 retries: ...")`
from the `except requests.exceptions.RequestException` handler (line 132), `code`
being the status of the final response whose `raise_for_status()` error was caught
there; `httpError code` models a raw `requests.HTTPError` propagating to the
caller — no branch of the embedding produces it, because every HTTPError raised
by `response.raise_for_status()` (line 115) is a RequestException and is caught
by the handler at line 126; the constructor exists so that statements can speak
about that conceivable outcome. -/
inductive ZepOutcome where
  | ok (payload : Nat)
  | rateLimitExceeded
  | requestFailed (code : Nat)
  | httpError (code : Nat)
deriving DecidableEq, Repr

/-- Embedding of `ZEPClient._make_request` (zep_client.py lines 58-132) on the
HTTP-response path: `requests.request` always yields a response here, so the
`except Timeout` and connection-failure cases never fire, but the
`except RequestException` handler DOES take part, because the HTTPError raised by
`response.raise_for_status()` is a RequestException and the raise sits inside the
try.  `status i` / `payload i` give the response to the i-th attempt
(`retryCount` is the attempt index, exactly as in the source, where each
recursive call passes `retry_count + 1`).  The source recursion is bounded
because every retry site requires `retry_count < self.max_retries`; here `k`
carries the remaining retry budget `max_retries - retry_count`, so `k = 0` is
exactly that test failing.  The recursive calls sit inside the caller's try, but
the only exception a nested call lets escape is ZEPAPIError, which no except
clause catches, so plain value-returning recursion is faithful.  Returned
alongside the outcome is the list of `time.sleep` delays, in order. -/
def makeRequestGo (retryDelay : Nat) (status payload : Nat → Nat) :
    Nat → Nat → ZepOutcome × List Nat
  | retryCount, k =>
    let s := status retryCount
    -- Handle rate limiting (429)
    if s = 429 then
      match k with
      | 0 => (.rateLimitExceeded, [])
      | k' + 1 =>
        let wait := retryDelay * (retryCount + 1)
        let r := makeRequestGo retryDelay status payload (retryCount + 1) k'
        (r.1, wait :: r.2)
    -- Handle server errors (5xx) with retry
    else if 500 ≤ s ∧ s < 600 then
      match k with
      | 0 =>
        -- retries exhausted: fall through to response.raise_for_status(); its
        -- HTTPError is caught by the except-RequestException handler, whose own
        -- retry_count < max_retries test fails for the same reason, so it
        -- re-raises the failure wrapped as ZEPAPIError("Request failed after ...")
        (.requestFailed s, [])
      | k' + 1 =>
        let wait := retryDelay * (retryCount + 1)
        let r := makeRequestGo retryDelay status payload (retryCount + 1) k'
        (r.1, wait :: r.2)
    -- response.raise_for_status() raises HTTPError for the remaining 4xx; being a
    -- RequestException it is caught at line 126: with retry budget left the
    -- handler sleeps the FLAT retry_delay and retries, exhausted it re-raises
    -- wrapped as ZEPAPIError("Request failed after ...")
    else if 400 ≤ s ∧ s < 600 then
      match k with
      | 0 => (.requestFailed s, [])
      | k' + 1 =>
        let r := makeRequestGo retryDelay status payload (retryCount + 1) k'
        (r.1, retryDelay :: r.2)
    else (.ok (payload retryCount), [])

/-- A top-level call to `_make_request`: `retry_count = 0`, and the client is
constructed with `max_retries = 3`, `retry_delay = 2` (zep_client.py lines 40-41). -/
def makeRequest (status payload : Nat → Nat) : ZepOutcome × List Nat :=
  makeRequestGo 2 status payload 0 3


/-- C4 counterexample: with three consecutive 429 responses followed by a 200, the
client sleeps three times (delays 2, 4, 6 seconds), not exactly twice as the claim
states.  The 200 payload is indeed returned. -/
theorem C4_three_429_then_200_sleeps_three_times :
    makeRequest (fun i => if i < 3 then 429 else 200) (fun _ => 7) =
      (ZepOutcome.ok 7, [2, 4, 6]) ∧
    ([2, 4, 6] : List Nat).length ≠ 2 := by
  constructor
  · decide
  · decide

/-- C4 (amended): with three consecutive 429 responses followed by a 200, the client
returns the 200 payload and sleeps exactly three times (once per 429) between the
four attempts, each retry delay being base_delay × (attempt + 1) = 2, 4, 6; and if
every attempt up to the retry cap is answered 429, the call fails with the
rate-limit-exceeded error after the same three sleeps. -/
theorem C4_retry_backoff (st pl rl : Nat → Nat)
    (h0 : st 0 = 429) (h1 : st 1 = 429) (h2 : st 2 = 429) (h3 : st 3 = 200)
    (hrl : ∀ i, i ≤ 3 → rl i = 429) :
    makeRequest st pl = (ZepOutcome.ok (pl 3), [2, 4, 6]) ∧
    (makeRequest st pl).2.length = 3 ∧
    makeRequest rl pl = (ZepOutcome.rateLimitExceeded, [2, 4, 6]) := by
  refine ⟨?_, ?_, ?_⟩
  · simp [makeRequest, makeRequestGo, h0, h1, h2, h3]
  · simp [makeRequest, makeRequestGo, h0, h1, h2, h3]
  · simp [makeRequest, makeRequestGo, hrl 0 (by omega), hrl 1 (by omega),
      hrl 2 (by omega), hrl 3 (by omega)]

/-- Witness for C4_retry_backoff at concrete response streams. -/
theorem C4_retry_backoff_witness :
    makeRequest (fun i => if i < 3 then 429 else 200) (fun _ => 9) =
      (ZepOutcome.ok 9, [2, 4, 6]) ∧
    (makeRequest (fun i => if i < 3 then 429 else 200) (fun _ => 9)).2.length = 3 ∧
    makeRequest (fun _ => 429) (fun _ => 9) = (ZepOutcome.rateLimitExceeded, [2, 4, 6]) :=
  C4_retry_backoff (fun i => if i < 3 then 429 else 200) (fun _ => 9) (fun _ => 429)
    (by decide) (by decide) (by decide) (by decide) (fun i _ => rfl)

/-- C5 counterexample: against persistent 500 responses the exhausted client
raises the client-defined ZEPAPIError("Request failed after 3 retries: ...") —
the HTTPError from response.raise_for_status() is a RequestException, caught at
zep_client.py line 126 and re-raised wrapped — so the caller does NOT receive
the underlying HTTP error the claim promises. -/
theorem C5_5xx_wrapped_as_client_error :
    makeRequest (fun _ => 500) (fun _ => 0) =
      (ZepOutcome.requestFailed 500, [2, 4, 6]) ∧
    (ZepOutcome.requestFailed 500 : ZepOutcome) ≠ ZepOutcome.httpError 500 := by
  constructor
  · decide
  · decide

/-- C5 (amended): when every attempt is answered with the same non-success,
non-429 status, the exhausted client fails with the client-defined
request-failed error (ZEPAPIError "Request failed after 3 retries: ..."),
never the raw HTTP error and never the rate-limit error: the final response's
raise_for_status() HTTPError is itself a RequestException and is caught and
re-raised wrapped by the generic handler — the same wrapper any persistent
non-success status ends in, after linear-backoff sleeps for 5xx and flat
sleeps for other 4xx. -/
theorem C5_request_failed_after_retries (st pl : Nat → Nat) (c : Nat)
    (h4 : 400 ≤ c) (h6 : c < 600) (hne : c ≠ 429) (hst : ∀ i, st i = c) :
    (makeRequest st pl).1 = ZepOutcome.requestFailed c ∧
    (makeRequest st pl).1 ≠ ZepOutcome.httpError c ∧
    (makeRequest st pl).1 ≠ ZepOutcome.rateLimitExceeded ∧
    (makeRequest st pl).2 = (if 500 ≤ c then [2, 4, 6] else [2, 2, 2]) := by
  have key : makeRequest st pl =
      (ZepOutcome.requestFailed c, if 500 ≤ c then [2, 4, 6] else [2, 2, 2]) := by
    by_cases h5 : 500 ≤ c
    · rw [if_pos h5]
      simp [makeRequest, makeRequestGo, hst, hne, h5, h6]
    · rw [if_neg h5]
      simp [makeRequest, makeRequestGo, hst, hne, h4, h5, h6]
  rw [key]
  refine ⟨rfl, by simp, by simp, rfl⟩

/-- Witness for C5_request_failed_after_retries at persistent 503 (5xx,
linear backoff) and persistent 404 (other 4xx, flat backoff) streams. -/
theorem C5_request_failed_witness :
    ((makeRequest (fun _ => 503) (fun _ => 0)).1 = ZepOutcome.requestFailed 503 ∧
     (makeRequest (fun _ => 503) (fun _ => 0)).1 ≠ ZepOutcome.httpError 503 ∧
     (makeRequest (fun _ => 503) (fun _ => 0)).1 ≠ ZepOutcome.rateLimitExceeded ∧
     (makeRequest (fun _ => 503) (fun _ => 0)).2 =
       (if 500 ≤ 503 then [2, 4, 6] else [2, 2, 2])) ∧
    ((makeRequest (fun _ => 404) (fun _ => 0)).1 = ZepOutcome.requestFailed 404 ∧
     (makeRequest (fun _ => 404) (fun _ => 0)).1 ≠ ZepOutcome.httpError 404 ∧
     (makeRequest (fun _ => 404) (fun _ => 0)).1 ≠ ZepOutcome.rateLimitExceeded ∧
     (makeRequest (fun _ => 404) (fun _ => 0)).2 =
       (if 500 ≤ 404 then [2, 4, 6] else [2, 2, 2])) :=
  ⟨C5_request_failed_after_retries (fun _ => 503) (fun _ => 0) 503
     (by omega) (by omega) (by omega) (fun _ => rfl),
   C5_request_failed_after_retries (fun _ => 404) (fun _ => 0) 404
     (by omega) (by omega) (by omega) (fun _ => rfl)⟩

/-! ## Username/email generation
(students/services.py, StudentAccountService.generate_student_username, lines 46-88) -/

/-- The first username candidate: "student_{timestamp}_{random_suffix}". -/
def usernameCandidate0 (ts sfx : String) : String :=
  "student_" ++ ts ++ "_" ++ sfx

/-- The retry username candidate: "student_{timestamp}_{random_suffix}_{counter}". -/
def usernameCandidateN (ts sfx : String) (counter : Nat) : String :=
  "student_" ++ ts ++ "_" ++ sfx ++ "_" ++ toString counter

/-- Embedding of the username-collision loop (services.py lines 71-77):

    counter = 0
    while User.objects.filter(username=username).exists():
        counter += 1
        random_suffix = secrets.token_hex(4)
        username = f"student_.._{counter}"
        if counter > 10:  # Safety limit
            break

`suffixes n` is the n-th value drawn from secrets.token_hex, `userExists` the
username directory.  The loop body runs while the break has not fired; the break
fires when counter + 1 > 10, i.e. when counter reaches 10, so the structural
budget `k` carries 10 - counter and the `k = 0` case is exactly the break: the
freshly built candidate is returned WITHOUT being checked against `userExists`. -/
def usernameLoop (ts : String) (suffixes : Nat → String) (userExists : String → Bool) :
    Nat → Nat → String → String
  | counter, k, username =>
    if userExists username then
      let counter' := counter + 1
      let username' := usernameCandidateN ts (suffixes counter') counter'
      match k with
      | 0 => username'
      | k' + 1 => usernameLoop ts suffixes userExists counter' k' username'
    else username

/-- Embedding of the email-uniqueness loop (services.py lines 83-86):

    counter = 1
    while Student.objects.filter(generated_email=email).exists():
        email = f"{username}{counter}@neulbom.internal"
        counter += 1

The source loop has no explicit bound; the model supplies `fuel` as an upper
bound on the number of iterations (any fuel larger than the number of persisted
emails makes the model exact, since the candidates are pairwise distinct). -/
def emailLoop (username : String) (emailExists : String → Bool) :
    Nat → Nat → String → String
  | _, 0, email => email
  | counter, fuel + 1, email =>
    if emailExists email then
      emailLoop username emailExists (counter + 1) fuel
        (username ++ toString counter ++ "@neulbom.internal")
    else email

/-- Embedding of `StudentAccountService.generate_student_username` (services.py
lines 46-88).  The name/school/class arguments of the source are unused there and
omitted; `ts` is the timestamp fragment, `suffixes` the stream of random suffixes.
Returns (username, email).  Note the return type has no error alternative: the
source surfaces no error when the username retry cap is hit. -/
def generate_student_username (ts : String) (suffixes : Nat → String)
    (userExists emailExists : String → Bool) (emailFuel : Nat) : String × String :=
  let username := usernameLoop ts suffixes userExists 0 10 (usernameCandidate0 ts (suffixes 0))
  let email := emailLoop username emailExists 1 emailFuel (username ++ "@neulbom.internal")
  (username, email)

/-- The user directory used for the C3 failing input: the initial candidate and
every retry candidate that the loop ever checks or builds (constant random
suffix "aaaaaaaa", counters 1..11) are already taken. -/
def c3Existing : List String :=
  usernameCandidate0 "12345678" "aaaaaaaa" ::
    (List.range 11).map (fun i => usernameCandidateN "12345678" "aaaaaaaa" (i + 1))

/-- C3: at the failing input (11 consecutive username collisions), the safety
limit breaks out of the loop and the call returns a username that is still in
use, with no error surfaced — the generated email is also derived from that
colliding username.  This contradicts the claimed post-condition that the
returned username is unused or an error is raised. -/
theorem C3_retry_cap_returns_colliding_username :
    (c3Existing.contains
      (generate_student_username "12345678" (fun _ => "aaaaaaaa")
        (fun u => c3Existing.contains u) (fun _ => false) 0).1) = true ∧
    (generate_student_username "12345678" (fun _ => "aaaaaaaa")
        (fun u => c3Existing.contains u) (fun _ => false) 0).1 =
      usernameCandidateN "12345678" "aaaaaaaa" 11 := by
  constructor
  · decide
  · decide

/-! ## CSV validator (students/validators.py, CSVValidator) -/

/-- REQUIRED_COLUMNS of CSVValidator (validators.py line 26). -/
def REQUIRED_COLUMNS : List String := ["school_name", "class_name", "student_name"]

/-- A data row after the cleaning performed at the top of `_validate_data`
(validators.py lines 134-158): the three required fields are NaN-filled,
stringified and stripped; grade and class_number are coerced to numbers with
NaN (`none`) on failure; zep_space_url is NaN-filled and stripped. -/
structure RawRow where
  school_name : String
  class_name : String
  student_name : String
  grade : Option Int
  class_number : Option Int
  zep_space_url : String
deriving DecidableEq, Repr

/-- The list of required columns missing from the header
(validators.py line 114). -/
def missing_columns (columns : List String) : List String :=
  REQUIRED_COLUMNS.filter (fun c => !columns.contains c)

/-- The single error message appended by `_validate_columns` when columns are
missing (validators.py lines 117-120): one message listing every missing column. -/
def columnError (missing : List String) : String :=
  "필수 열이 누락되었습니다: " ++ String.intercalate ", " missing ++
    ". 필수 열: " ++ String.intercalate ", " REQUIRED_COLUMNS

/-- The error message appended by `_validate_data` on an empty DataFrame
(validators.py line 131). -/
def emptyDataError : String := "파일에 데이터가 없습니다."

/-- Row-number rendering used in `_validate_data`: pandas index + 2. -/
def rowLabel (idx : Nat) : String := toString (idx + 2)

/-- Embedding of the per-row checks of `_validate_data` (validators.py lines
161-203), producing the errors appended for the row at pandas index `idx`. -/
def rowErrors (idx : Nat) (r : RawRow) : List String :=
  (if r.school_name = "" then ["줄 " ++ rowLabel idx ++ ": 학교 이름이 누락되었습니다."]
   else if r.school_name.length > 200 then
     ["줄 " ++ rowLabel idx ++ ": 학교 이름이 너무 깁니다 (최대 200자)."]
   else []) ++
  (if r.class_name = "" then ["줄 " ++ rowLabel idx ++ ": 학급 이름이 누락되었습니다."]
   else if r.class_name.length > 100 then
     ["줄 " ++ rowLabel idx ++ ": 학급 이름이 너무 깁니다 (최대 100자)."]
   else []) ++
  (if r.student_name = "" then ["줄 " ++ rowLabel idx ++ ": 학생 이름이 누락되었습니다."]
   else if r.student_name.length > 100 then
     ["줄 " ++ rowLabel idx ++ ": 학생 이름이 너무 깁니다 (최대 100자)."]
   else []) ++
  (match r.grade with
   | some g =>
     if g < 1 ∨ g > 6 then
       ["줄 " ++ rowLabel idx ++ ": 학년은 1-6 사이의 값이어야 합니다. (입력값: " ++ toString g ++ ")"]
     else []
   | none => []) ++
  (match r.class_number with
   | some c =>
     if c < 1 then
       ["줄 " ++ rowLabel idx ++ ": 반 번호는 1 이상이어야 합니다. (입력값: " ++ toString c ++ ")"]
     else []
   | none => []) ++
  (if r.zep_space_url ≠ "" ∧ r.zep_space_url.length > 500 then
     ["줄 " ++ rowLabel idx ++ ": ZEP 스페이스 URL이 너무 깁니다 (최대 500자)."]
   else [])

/-- Errors accumulated by `_validate_data` (validators.py lines 125-205):
an empty DataFrame yields the single no-data error; otherwise the per-row
errors in row order.  In the source, `valid` is False exactly when at least one
error was appended, so the boolean result is `errors = []`. -/
def validateDataErrors (rows : List RawRow) : List String :=
  if rows = [] then [emptyDataError]
  else (rows.enum.map (fun p => rowErrors p.1 p.2)).flatten

/-- Result dictionary of `CSVValidator.validate`. -/
structure ValidationResult where
  valid : Bool
  data : List RawRow
  errors : List String
deriving DecidableEq, Repr

/-- Embedding of `CSVValidator.validate` (validators.py lines 33-73) after a
successful parse of the file into (columns, rows): column validation first —
on failure return invalid with the accumulated errors and empty data, no row
validation — then data validation, then the accepted rows. -/
def CSVValidator_validate (columns : List String) (rows : List RawRow) :
    ValidationResult :=
  let missing := missing_columns columns
  if missing ≠ [] then
    { valid := false, data := [], errors := [columnError missing] }
  else
    let dataErrors := validateDataErrors rows
    if dataErrors ≠ [] then { valid := false, data := [], errors := dataErrors }
    else { valid := true, data := rows, errors := [] }

/-- Embedding of `StudentUploadForm.parse_csv` (forms.py lines 68-88): run the
validator; if invalid, raise ValidationError with the newline-joined errors,
otherwise return the accepted rows. -/
def parse_csv (columns : List String) (rows : List RawRow) :
    Except String (List RawRow) :=
  let result := CSVValidator_validate columns rows
  if result.valid then .ok result.data
  else .error (String.intercalate "\n" result.errors)

/-- A row whose row-level validation would produce several errors (blank names,
grade out of range, class number below 1), used to show that row-level
validation is not attempted when columns are missing. -/
def c8BadRow : RawRow :=
  { school_name := "", class_name := "", student_name := "",
    grade := some 9, class_number := some 0, zep_space_url := "" }

/-- C8 counterexample: with two required columns missing, the validator records a
single combined error message, not one error per missing column. -/
theorem C8_missing_columns_single_error :
    (missing_columns ["student_name"]).length = 2 ∧
    (CSVValidator_validate ["student_name"] [c8BadRow]).errors.length = 1 ∧
    (1 : Nat) ≠ 2 := by
  refine ⟨?_, ?_, ?_⟩
  · decide
  · decide
  · decide

/-- C8 (amended): if any required column is missing, validation fails immediately
with exactly one error message naming all the missing columns; no row-level
validation is attempted (the outcome does not depend on the rows at all), and
the result carries valid = false and an empty accepted-row list. -/
theorem C8_structural_check (columns : List String) (rows : List RawRow)
    (h : missing_columns columns ≠ []) :
    CSVValidator_validate columns rows =
      { valid := false, data := [], errors := [columnError (missing_columns columns)] } := by
  simp [CSVValidator_validate, h]

/-- Witness for C8_structural_check: empty header, all three columns missing. -/
theorem C8_structural_check_witness :
    missing_columns [] ≠ [] ∧
    CSVValidator_validate [] [c8BadRow] =
      { valid := false, data := [], errors := [columnError (missing_columns [])] } :=
  ⟨by decide, C8_structural_check [] [c8BadRow] (by decide)⟩

/-- C9: a file that parses successfully but has zero data rows is rejected: the
validator returns valid = false with a non-empty error list and an empty data
list, and parse_csv raises (returns an error), so an empty roster can never
reach the preview or account-creation steps. -/
theorem C9_empty_roster_rejected (columns : List String) :
    (CSVValidator_validate columns []).valid = false ∧
    (CSVValidator_validate columns []).errors ≠ [] ∧
    (CSVValidator_validate columns []).data = [] ∧
    ∃ e, parse_csv columns [] = Except.error e := by
  by_cases h : missing_columns columns = [] <;>
    simp [CSVValidator_validate, parse_csv, validateDataErrors, h]

/-- Witness for C9_empty_roster_rejected at a complete header. -/
theorem C9_empty_roster_rejected_witness :
    (CSVValidator_validate REQUIRED_COLUMNS []).valid = false ∧
    (CSVValidator_validate REQUIRED_COLUMNS []).errors ≠ [] ∧
    (CSVValidator_validate REQUIRED_COLUMNS []).data = [] ∧
    ∃ e, parse_csv REQUIRED_COLUMNS [] = Except.error e :=
  C9_empty_roster_rejected REQUIRED_COLUMNS

/-! ## Upload preview duplicate flagging (students/views.py, student_upload,
lines 68-103) -/

/-- A parsed upload row as seen by the preview's duplicate-detection pass. -/
structure UploadRow where
  school_name : String
  class_name : String
  student_name : String
deriving DecidableEq, Repr

/-- The persisted state consulted by the preview pass, for a fixed requesting
instructor.  `schools` holds the School names; `classes` holds (school name,
class name) pairs of this instructor's classes; `students` holds persisted
students as (student name, school name, class name) triples. -/
structure PreviewDB where
  schools : List String
  classes : List (String × String)
  students : List (String × String × String)
deriving DecidableEq, Repr

/-- Embedding of the per-row duplicate check (views.py lines 73-103):
look up the school by name (`School.objects.filter(name=..).first()`); if found,
look up this instructor's class of that name in that school; if found, the row
is flagged exactly when a persisted student with the same name exists in that
class; at every missing step the flag is false. -/
def flagRow (db : PreviewDB) (r : UploadRow) : Bool :=
  match db.schools.find? (fun s => s == r.school_name) with
  | none => false
  | some school =>
    match db.classes.find? (fun c => c.1 == school && c.2 == r.class_name) with
    | none => false
    | some cls =>
      (db.students.find? (fun st =>
        st.1 == r.student_name && st.2.1 == cls.1 && st.2.2 == cls.2)).isSome

/-- Embedding of the duplicate-detection loop over the whole uploaded batch:
each row is annotated with its is_duplicate flag; no row is removed. -/
def flagDuplicates (db : PreviewDB) (rows : List UploadRow) :
    List (UploadRow × Bool) :=
  rows.map (fun r => (r, flagRow db r))

/-- `find?` with an equality-test predicate returns the sought value exactly when
it is present (first occurrence); helper for characterizing the `.first()`
lookups of the preview pass. -/
theorem find?_beq_eq_ite {α : Type} [BEq α] [LawfulBEq α] (l : List α) (x : α)
    (p : α → Bool) (hp : ∀ a, p a = (a == x)) :
    l.find? p = if x ∈ l then some x else none := by
  induction l with
  | nil => simp
  | cons a l ih =>
    rw [List.find?_cons, hp]
    by_cases h : a = x
    · subst h
      simp
    · have hf : (a == x) = false := by simpa using h
      have hxa : ¬ x = a := fun e => h e.symm
      rw [hf, ih]
      simp [List.mem_cons, hxa]

/-- The is_duplicate flag computed by the preview pass is true exactly when the
school exists, the instructor has a class of that name in it, and a persisted
student of the same name sits in that class. -/
theorem flagRow_eq_true_iff (db : PreviewDB) (r : UploadRow) :
    flagRow db r = true ↔
      r.school_name ∈ db.schools ∧
      (r.school_name, r.class_name) ∈ db.classes ∧
      (r.student_name, r.school_name, r.class_name) ∈ db.students := by
  have hp1 : ∀ s : String, (s == r.school_name) = (s == r.school_name) := fun _ => rfl
  have h1 := find?_beq_eq_ite db.schools r.school_name _ hp1
  unfold flagRow
  rw [h1]
  by_cases hs : r.school_name ∈ db.schools
  · rw [if_pos hs]
    have hp2 : ∀ c : String × String,
        (c.1 == r.school_name && c.2 == r.class_name) =
          (c == (r.school_name, r.class_name)) := by
      rintro ⟨x, y⟩; rfl
    have h2 := find?_beq_eq_ite db.classes (r.school_name, r.class_name) _ hp2
    simp only [h2]
    by_cases hc : (r.school_name, r.class_name) ∈ db.classes
    · rw [if_pos hc]
      have hp3 : ∀ st : String × String × String,
          (st.1 == r.student_name && st.2.1 == r.school_name && st.2.2 == r.class_name) =
            (st == (r.student_name, r.school_name, r.class_name)) := by
        rintro ⟨x, y, z⟩
        show (x == r.student_name && y == r.school_name && z == r.class_name) =
          (x == r.student_name && (y == r.school_name && z == r.class_name))
        rw [Bool.and_assoc]
      have h3 := find?_beq_eq_ite db.students
        (r.student_name, r.school_name, r.class_name) _ hp3
      simp only [h3]
      by_cases hst : (r.student_name, r.school_name, r.class_name) ∈ db.students
      · simp [hs, hc, hst]
      · simp [hs, hc, hst]
    · rw [if_neg hc]
      simp [hs, hc]
  · rw [if_neg hs]
    simp [hs]

/-- A fresh upload row used in the C2 counterexample. -/
def c2Row : UploadRow :=
  { school_name := "서울초", class_name := "1반", student_name := "홍길동" }

/-- C2 counterexample: two identical rows in the same batch, with nothing
persisted, are both flagged is_duplicate = false — the second in-batch
occurrence is NOT flagged, contrary to the claim (which demands flags
[false, true] here). -/
theorem C2_in_batch_duplicate_not_flagged :
    flagDuplicates { schools := [], classes := [], students := [] } [c2Row, c2Row] =
      [(c2Row, false), (c2Row, false)] ∧
    (flagDuplicates { schools := [], classes := [], students := [] }
        [c2Row, c2Row]).map Prod.snd ≠ [false, true] := by
  constructor
  · decide
  · decide

/-- C2 (amended): the preview pass flags a row is_duplicate = true exactly when
its school exists, the requesting instructor has a class of that name in that
school, and a persisted student with the same student_name already sits in that
class; rows of the same batch play no part in the flag, each row's flag depends
only on the persisted state, and no row is excluded (the output lists every row
in order). -/
theorem C2_duplicate_flagging (db : PreviewDB) (rows : List UploadRow) :
    (flagDuplicates db rows).map Prod.fst = rows ∧
    ∀ p ∈ flagDuplicates db rows,
      (p.2 = true ↔
        p.1.school_name ∈ db.schools ∧
        (p.1.school_name, p.1.class_name) ∈ db.classes ∧
        (p.1.student_name, p.1.school_name, p.1.class_name) ∈ db.students) := by
  constructor
  · unfold flagDuplicates
    rw [List.map_map]
    have hid : (Prod.fst ∘ fun r => (r, flagRow db r)) = id := rfl
    rw [hid, List.map_id]
  · intro p hp
    simp only [flagDuplicates, List.mem_map] at hp
    obtain ⟨r, _hr, rfl⟩ := hp
    exact flagRow_eq_true_iff db r

/-- Persisted state for the C2 witness: one school, one class of the requesting
instructor, one persisted student 김철수 in it. -/
def c2DB : PreviewDB :=
  { schools := ["서울초"], classes := [("서울초", "1반")],
    students := [("김철수", "서울초", "1반")] }

/-- A row colliding with the persisted student used in the C2 witness. -/
def c2RowDup : UploadRow :=
  { school_name := "서울초", class_name := "1반", student_name := "김철수" }

/-- Witness for C2_duplicate_flagging at a concrete batch against c2DB. -/
theorem C2_duplicate_flagging_witness :
    (flagDuplicates c2DB [c2Row, c2RowDup]).map Prod.fst = [c2Row, c2RowDup] ∧
    ∀ p ∈ flagDuplicates c2DB [c2Row, c2RowDup],
      (p.2 = true ↔
        p.1.school_name ∈ c2DB.schools ∧
        (p.1.school_name, p.1.class_name) ∈ c2DB.classes ∧
        (p.1.student_name, p.1.school_name, p.1.class_name) ∈ c2DB.students) :=
  C2_duplicate_flagging c2DB [c2Row, c2RowDup]

/-! ## Auto-hierarchy bulk creation
(students/services.py, create_students_from_csv_with_auto_school_class,
lines 226-374) -/

/-- The values a newly get-or-created Class is tagged with. -/
structure ClassDefaults where
  academic_year : Nat
  semester : String
deriving DecidableEq, Repr

/-- Embedding of the defaults used by the Class `get_or_create` of the
auto-hierarchy service (services.py lines 276-287): the current date is read
via `datetime.now()`, but only its year is used — `academic_year` is the
current calendar year and the semester default is the literal string
"spring", whatever the month. -/
def class_get_or_create_defaults (nowYear nowMonth : Nat) : ClassDefaults :=
  { academic_year := nowYear, semester := "spring" }

/-- Modelled from the spec: the semester tag the specification says a new class
receives, inferred from the current month — first half of the year gives the
first-term ("spring") tag, else the second-term ("fall") tag. -/
def spec_semester_for_month (nowMonth : Nat) : String :=
  if nowMonth ≤ 6 then "spring" else "fall"

/-- C7 counterexample: in October (month 10, second half of the year) the claim
demands the fall tag, but the code tags the new class "spring". -/
theorem C7_october_class_tagged_spring :
    (class_get_or_create_defaults 2025 10).semester = "spring" ∧
    spec_semester_for_month 10 = "fall" ∧
    ("spring" : String) ≠ "fall" := by
  refine ⟨?_, ?_, ?_⟩
  · rfl
  · rfl
  · decide

/-- C7 (amended): every newly get-or-created Class is tagged with the current
calendar year as its academic year and with the fixed semester tag "spring",
regardless of the current month. -/
theorem C7_class_defaults (nowYear nowMonth : Nat) :
    class_get_or_create_defaults nowYear nowMonth =
      { academic_year := nowYear, semester := "spring" } := rfl

/-- Witness for C7_class_defaults at a second-half-of-year date. -/
theorem C7_class_defaults_witness :
    class_get_or_create_defaults 2025 11 =
      { academic_year := 2025, semester := "spring" } :=
  C7_class_defaults 2025 11

/-! ## Space provisioning (spaces/services.py; students/views.py lines 167-213) -/

/-- A FailedSpaceCreation row (students/models.py lines 266-311, fields used by
the services). -/
structure FailedRec where
  student : String
  error_message : String
  retry_count : Nat
  resolved : Bool
deriving DecidableEq, Repr

/-- The persisted state touched by space provisioning: students as
(name, zep_space_url) pairs — empty string meaning no space URL — and the
FailedSpaceCreation ledger in creation order. -/
structure SpaceState where
  students : List (String × String)
  recs : List FailedRec
deriving DecidableEq, Repr

/-- Embedding of `create_student_space` (spaces/services.py lines 18-104):
`ok` abstracts whether the ZEP create/permission calls succeed.  On success the
student's zep_space_url is saved; on a ZEPAPIError a FailedSpaceCreation row is
appended with retry_count = 0 and the result is a failure (no exception
propagates). -/
def create_student_space (st : SpaceState) (student : String) (ok : Bool)
    (errMsg : String) : SpaceState × Bool :=
  if ok then
    ({ st with students :=
        st.students.map (fun p => if p.1 == student then (p.1, "space-url") else p) },
     true)
  else
    ({ st with recs := st.recs ++
        [{ student := student, error_message := errMsg,
           retry_count := 0, resolved := false }] },
     false)

/-- Embedding of `create_spaces_for_students` (spaces/services.py lines
107-152): serial per-student calls, counting successes and failures. -/
def create_spaces_for_students (st : SpaceState) (names : List String)
    (ok : String → Bool) : SpaceState × Nat × Nat :=
  names.foldl
    (fun acc n =>
      let r := create_student_space acc.1 n (ok n) "ZEPAPIError"
      if r.2 then (r.1, acc.2.1 + 1, acc.2.2) else (r.1, acc.2.1, acc.2.2 + 1))
    (st, 0, 0)

/-- MAX_BATCH_SIZE_FOR_AUTO_SPACE (students/views.py line 178). -/
def MAX_BATCH_SIZE_FOR_AUTO_SPACE : Nat := 30

/-- Outcome of the post-creation space step of the upload view: the resulting
persisted state, the students handed to the orchestrator, and whether the
manual-provisioning message was shown. -/
structure SpaceStepResult where
  db : SpaceState
  invoked : List String
  manualMessage : Bool
deriving DecidableEq, Repr

/-- Embedding of the space-provisioning block of `student_upload`
(students/views.py lines 167-213): filter the created students to those
without a space URL; if none, do nothing; if more than the threshold, skip the
orchestrator entirely and show the manual-provisioning message; otherwise hand
every one of them to `create_spaces_for_students`. -/
def student_upload_space_step (db : SpaceState) (created : List (String × String))
    (ok : String → Bool) : SpaceStepResult :=
  let ws := created.filter (fun s => s.2 == "")
  if ws.isEmpty then { db := db, invoked := [], manualMessage := false }
  else if ws.length > MAX_BATCH_SIZE_FOR_AUTO_SPACE then
    { db := db, invoked := [], manualMessage := true }
  else
    { db := (create_spaces_for_students db (ws.map Prod.fst) ok).1,
      invoked := ws.map Prod.fst, manualMessage := false }

/-- C6: if more than 30 created students lack a space URL the orchestrator is
bypassed — the persisted state is untouched (no FailedSpaceCreation rows, no
URL updates, created accounts kept) and the manual message is shown; if at
most 30 lack one, the orchestrator is invoked on exactly those students. -/
theorem C6_space_guard (db : SpaceState) (created : List (String × String))
    (ok : String → Bool) :
    ((created.filter (fun s => s.2 == "")).length > MAX_BATCH_SIZE_FOR_AUTO_SPACE →
      student_upload_space_step db created ok =
        { db := db, invoked := [], manualMessage := true }) ∧
    ((created.filter (fun s => s.2 == "")).length ≤ MAX_BATCH_SIZE_FOR_AUTO_SPACE →
      (student_upload_space_step db created ok).invoked =
        (created.filter (fun s => s.2 == "")).map Prod.fst) := by
  constructor
  · intro hgt
    have hne : (created.filter (fun s => s.2 == "")).isEmpty = false := by
      rw [List.isEmpty_eq_false]
      intro he
      rw [he] at hgt
      simp at hgt
    unfold student_upload_space_step
    simp only [hne, Bool.false_eq_true, if_false, hgt, if_pos]
  · intro hle
    by_cases he : (created.filter (fun s => s.2 == "")).isEmpty
    · have : created.filter (fun s => s.2 == "") = [] := by
        rwa [List.isEmpty_iff] at he
      unfold student_upload_space_step
      simp [he, this]
    · have hng : ¬ ((created.filter (fun s => s.2 == "")).length >
          MAX_BATCH_SIZE_FOR_AUTO_SPACE) := by omega
      unfold student_upload_space_step
      simp only [he, Bool.false_eq_true, if_false, hng]

/-- 31 created students without a space URL, for the C6 witness. -/
def c6Created31 : List (String × String) :=
  (List.range 31).map (fun i => (toString i, ""))

/-- 29 created students without a space URL, for the C6 witness. -/
def c6Created29 : List (String × String) :=
  (List.range 29).map (fun i => (toString i, ""))

/-- Persisted state for the C6 witness. -/
def c6DB : SpaceState := { students := [], recs := [] }

/-- Witness for C6_space_guard at batches of 31 and 29 students. -/
theorem C6_space_guard_witness :
    ((c6Created31.filter (fun s => s.2 == "")).length > MAX_BATCH_SIZE_FOR_AUTO_SPACE ∧
     student_upload_space_step c6DB c6Created31 (fun _ => true) =
       { db := c6DB, invoked := [], manualMessage := true }) ∧
    ((c6Created29.filter (fun s => s.2 == "")).length ≤ MAX_BATCH_SIZE_FOR_AUTO_SPACE ∧
     (student_upload_space_step c6DB c6Created29 (fun _ => true)).invoked =
       (c6Created29.filter (fun s => s.2 == "")).map Prod.fst) :=
  ⟨⟨by decide, (C6_space_guard c6DB c6Created31 (fun _ => true)).1 (by decide)⟩,
   ⟨by decide, (C6_space_guard c6DB c6Created29 (fun _ => true)).2 (by decide)⟩⟩

/-- Embedding of `retry_failed_space_creation` (spaces/services.py lines
155-191): re-resolve the instructor email (if absent, bail out without
touching anything), re-invoke `create_student_space` for the record's student;
on success mark the original record resolved; on failure increment the
original record's retry_count — on top of the fresh FailedSpaceCreation row
that `create_student_space` itself just appended.  The record under retry is
addressed by its index `i` in the ledger. -/
def retry_failed_space_creation (st : SpaceState) (i : Nat)
    (instructorEmail : Option String) (ok : Bool) : SpaceState × Bool :=
  match st.recs[i]? with
  | none => (st, false)
  | some fr =>
    match instructorEmail with
    | none => (st, false)
    | some _ =>
      let r := create_student_space st fr.student ok "ZEPAPIError"
      if r.2 then
        ({ r.1 with recs := r.1.recs.set i { fr with resolved := true } }, true)
      else
        ({ r.1 with recs := r.1.recs.set i { fr with retry_count := fr.retry_count + 1 } },
         false)

/-- Replacing one element by another with the same predicate value leaves
countP unchanged. -/
theorem countP_set_of_same {α : Type} (p : α → Bool) (l : List α) (i : Nat)
    (a b : α) (hget : l[i]? = some a) (hpb : p b = p a) :
    (l.set i b).countP p = l.countP p := by
  induction l generalizing i with
  | nil => simp at hget
  | cons x xs ih =>
    cases i with
    | zero =>
      simp only [List.getElem?_cons_zero, Option.some.injEq] at hget
      subst hget
      simp [List.set, List.countP_cons, hpb]
    | succ n =>
      simp only [List.getElem?_cons_succ] at hget
      simp only [List.set]
      rw [List.countP_cons, List.countP_cons, ih n hget]

/-- C10: a failed retry of a FailedSpaceCreation record returns False,
increments that record's retry_count in place (its resolved flag stays
false), AND appends a fresh FailedSpaceCreation row with retry_count = 0 for
the same student, so the ledger grows by exactly one unresolved row. -/
theorem C10_failed_retry_grows_ledger (st : SpaceState) (i : Nat) (e : String)
    (fr : FailedRec) (hget : st.recs[i]? = some fr) (hres : fr.resolved = false) :
    (retry_failed_space_creation st i (some e) false).2 = false ∧
    (retry_failed_space_creation st i (some e) false).1.recs.length =
      st.recs.length + 1 ∧
    (retry_failed_space_creation st i (some e) false).1.recs.getLast? =
      some { student := fr.student, error_message := "ZEPAPIError",
             retry_count := 0, resolved := false } ∧
    (retry_failed_space_creation st i (some e) false).1.recs[i]? =
      some { fr with retry_count := fr.retry_count + 1 } ∧
    (retry_failed_space_creation st i (some e) false).1.recs.countP
        (fun r => !r.resolved) =
      st.recs.countP (fun r => !r.resolved) + 1 := by
  have hi : i < st.recs.length := by
    rcases List.getElem?_eq_some.mp hget with ⟨h, _⟩
    exact h
  have hstep : retry_failed_space_creation st i (some e) false =
      ({ students := st.students,
         recs := (st.recs.set i { fr with retry_count := fr.retry_count + 1 }) ++
           [{ student := fr.student, error_message := "ZEPAPIError",
              retry_count := 0, resolved := false }] }, false) := by
    unfold retry_failed_space_creation create_student_space
    simp only [hget]
    simp [List.set_append_left _ _ hi]
  rw [hstep]
  refine ⟨rfl, ?_, ?_, ?_, ?_⟩
  · simp
  · exact List.getLast?_concat _
  · rw [List.getElem?_append_left (by simpa using hi),
      List.getElem?_set_self (by simpa using hi)]
  · rw [List.countP_append,
      countP_set_of_same (fun r : FailedRec => !r.resolved) st.recs i fr
        { fr with retry_count := fr.retry_count + 1 } hget rfl]
    simp

/-- Ledger for the C10 witness: one unresolved record with retry_count 2. -/
def c10State : SpaceState :=
  { students := [("가", "")],
    recs := [{ student := "가", error_message := "boom",
               retry_count := 2, resolved := false }] }

/-- Witness for C10_failed_retry_grows_ledger at the concrete ledger. -/
theorem C10_failed_retry_grows_ledger_witness :
    c10State.recs[0]? = some { student := "가", error_message := "boom",
                               retry_count := 2, resolved := false } ∧
    (retry_failed_space_creation c10State 0 (some "t@x") false).2 = false ∧
    (retry_failed_space_creation c10State 0 (some "t@x") false).1.recs.length =
      c10State.recs.length + 1 ∧
    (retry_failed_space_creation c10State 0 (some "t@x") false).1.recs.getLast? =
      some { student := "가", error_message := "ZEPAPIError",
             retry_count := 0, resolved := false } ∧
    (retry_failed_space_creation c10State 0 (some "t@x") false).1.recs[0]? =
      some { student := "가", error_message := "boom",
             retry_count := 3, resolved := false } ∧
    (retry_failed_space_creation c10State 0 (some "t@x") false).1.recs.countP
        (fun r => !r.resolved) =
      c10State.recs.countP (fun r => !r.resolved) + 1 :=
  ⟨by decide,
   C10_failed_retry_grows_ledger c10State 0 "t@x"
     { student := "가", error_message := "boom", retry_count := 2, resolved := false }
     (by decide) (by decide)⟩
